import Mathlib

/-!
A shallow embedding of `src/weather.py` (a pydantic_ai weather agent) together
with the parts of its runtime that the specification describes: the output
validator and the retry controller.

Conventions of the embedding:
* Python machine floats carrying coordinates and temperatures are modelled as
  rationals (the values the program reads out of JSON payloads are decimal).
* Every network interaction is explicit: each tool takes the upstream HTTP
  response it would observe as an extra argument (an oracle for the external
  world), and returns, next to its outcome, a Bool recording whether the tool
  performed a network operation on that run.
* Exceptions are values: a tool run ends in `success`, in `modelRetry`
  (the `ModelRetry` exception pydantic_ai re-plans on), in `httpError`
  (an exception escaping `raise_for_status`), or in `pyError` (any other
  uncaught Python exception); the two exception outcomes are fatal to the
  run.
-/

/-- One element of the agent's declared output, from `class Structured_Output`
(`src/weather.py` lines 18-22): fields `location`, `temperature`, `aqi`,
`description`, with `aqi` the only integer field. -/
structure Structured_Output where
  location : String
  temperature : String
  aqi : Int
  description : String
deriving DecidableEq

/-- The per-run dependency bundle, from `@dataclass class Deps`
(`src/weather.py` lines 25-30).  The `client : AsyncClient` handle is not a
field here: the transport is modelled by the explicit response arguments each
tool takes. -/
structure Deps where
  weather_api_key : Option String
  geo_api_key : Option String
  aqi_api_key : Option String

/-- The agent configuration carried by `weather_agent = Agent(...)`
(`src/weather.py` lines 34-49); the only field the claims depend on is
`retries=2` (line 46). -/
structure AgentConfig where
  retries : Nat

/-- `weather_agent` with its configured retry bound (`src/weather.py` line 46). -/
def weather_agent : AgentConfig := { retries := 2 }

/-- Outcome of one tool invocation. `success` is a normal return;
`modelRetry` models raising `pydantic_ai.ModelRetry` (a retryable failure);
`httpError` models an HTTP status exception escaping `raise_for_status`;
`pyError` models any other uncaught Python exception, such as a TypeError or
AttributeError, escaping the tool (both exception outcomes are fatal:
nothing in the tool or the loop catches them). -/
inductive ToolOutcome (α : Type) where
  | success (val : α)
  | modelRetry (msg : String)
  | httpError (status : Nat)
  | pyError (msg : String)
deriving DecidableEq

/-- Classification of a tool outcome as seen by the orchestration loop. -/
inductive ToolResultKind where
  | success
  | retryable
  | fatal
deriving DecidableEq

/-- The kind of an outcome: normal returns succeed, `ModelRetry` is
retryable, an uncaught exception is fatal. -/
def toolKind {α : Type} : ToolOutcome α → ToolResultKind
  | .success _ => .success
  | .modelRetry _ => .retryable
  | .httpError _ => .fatal
  | .pyError _ => .fatal

/-! ### get_aqi (`src/weather.py` lines 56-72) -/

/-- A JSON-like value, the raw payload arriving as a parsed JSON body: what
`response.json()` yields inside `get_aqi`, and the shape of a candidate
final answer before validation. -/
inductive JValue where
  | null
  | bool (b : Bool)
  | int (n : Int)
  | str (s : String)
  | arr (elems : List JValue)
  | obj (fields : List (String × JValue))

/-- What the `requests.get` call inside `get_aqi` can observe:
`requestError` is any `requests.RequestException` (connection failure,
timeout, an error status raised by `raise_for_status`, or a JSON decode
failure — all subclasses of `RequestException`, all caught by the tool);
`ok` is the successfully parsed JSON body of a success response, of any
shape. -/
inductive AqiNet where
  | requestError
  | ok (body : JValue)

/-- The comparison `data.get("status") == "ok"` on the fields of a JSON
object: true exactly when the "status" key holds the string "ok" (a missing
key yields None, and a value of any other type or content compares
unequal). -/
def isStatusOk (fs : List (String × JValue)) : Bool :=
  match fs.lookup "status" with
  | some (.str s) => s == "ok"
  | _ => false

/-- The Python substring test `"aqi" in s`: `s` splits at "aqi" into more
than one part exactly when "aqi" occurs in `s`. -/
def strContainsAqi (s : String) : Bool :=
  (s.splitOn "aqi").length != 1

/-- Equality of a JSON value with the Python string "aqi", as the `==` of a
list membership test evaluates it: only the string "aqi" itself compares
equal. -/
def isStrAqi : JValue → Bool
  | .str s => s == "aqi"
  | _ => false

/-- Embedding of `get_aqi` (`src/weather.py` lines 56-72), evaluating the
source condition the way Python does, uncaught exceptions included:
`data.get("status")` raises AttributeError when the body is not an object;
when the status is not "ok" or the "data" key is missing, the
short-circuiting `and` makes the function return None; `"aqi" in
data["data"]` is key membership on an object, element membership on a list,
a substring test on a string, and raises TypeError on any other value;
`data["data"]["aqi"]` then returns the stored value on an object and raises
TypeError on a list or string.  Only `requests.RequestException` is caught,
so these exceptions escape the handler.  Note the source never looks at
`ctx.deps.aqi_api_key` being `None` or not: the key is only interpolated
into the URL and the request is attempted unconditionally, so the network
flag is always `true`. -/
def get_aqi (_deps : Deps) (_lat _lon : ℚ) (net : AqiNet) :
    ToolOutcome (Option JValue) × Bool :=
  match net with
  | .requestError => (.success none, true)
  | .ok body =>
    match body with
    | .obj fs =>
      if isStatusOk fs then
        match fs.lookup "data" with
        | some (.obj dfs) =>
          match dfs.lookup "aqi" with
          | some v => (.success (some v), true)
          | none => (.success none, true)
        | some (.arr xs) =>
          if xs.any isStrAqi then (.pyError "TypeError", true)
          else (.success none, true)
        | some (.str s) =>
          if strContainsAqi s then (.pyError "TypeError", true)
          else (.success none, true)
        | some _ => (.pyError "TypeError", true)
        | none => (.success none, true)
      else (.success none, true)
    | _ => (.pyError "AttributeError", true)

/-! ### get_lat_lng (`src/weather.py` lines 75-100) -/

/-- One entry of the geocode.maps.co result list; the source reads keys
`lat` and `lon` of the first entry. -/
structure GeoEntry where
  lat : ℚ
  lon : ℚ
deriving DecidableEq

/-- The response the geocoding GET observes: its HTTP status code (the
httpx `raise_for_status` raises unless it is a 2xx success) and the parsed
JSON body, a list of matches. -/
structure GeoResponse where
  statusCode : Nat
  data : List GeoEntry
deriving DecidableEq

/-- The coordinate pair `get_lat_lng` returns (keys `lat`, `lng`). -/
structure LatLng where
  lat : ℚ
  lng : ℚ
deriving DecidableEq

/-- The dummy response returned when no geocoding key is configured
(`src/weather.py` line 87): London. -/
def londonFallback : LatLng := { lat := 51.1, lng := -0.1 }

/-- Embedding of `get_lat_lng` (`src/weather.py` lines 75-100): with no
`geo_api_key` it returns the dummy London coordinates without touching the
network; otherwise it performs the request, propagates any non-2xx status —
1xx and 3xx included, since the httpx client raises `HTTPStatusError`
whenever the status is not a success — as an exception, returns the first
match when the result list is non-empty, and raises `ModelRetry` on an
empty result list. -/
def get_lat_lng (deps : Deps) (_location_description : String)
    (net : GeoResponse) : ToolOutcome LatLng × Bool :=
  match deps.geo_api_key with
  | none => (.success londonFallback, false)
  | some _ =>
    if net.statusCode < 200 ∨ 300 ≤ net.statusCode then (.httpError net.statusCode, true)
    else
      match net.data with
      | [] => (.modelRetry "Could not find the location", true)
      | e :: _ => (.success { lat := e.lat, lng := e.lon }, true)

/-! ### get_weather (`src/weather.py` lines 103-157) -/

/-- The `data.values` object of a tomorrow.io realtime response.  The source
reads only `temperatureApparent` and `weatherCode`; the payload also carries
the actual `temperature`, which the source never reads — it is kept here so
that independence from it is expressible. -/
structure WeatherValues where
  temperature : ℚ
  temperatureApparent : ℚ
  weatherCode : Int
deriving DecidableEq

/-- The response the weather GET observes: its HTTP status code (the httpx
`raise_for_status` raises unless it is a 2xx success) and the `data.values`
payload. -/
structure WeatherResponse where
  statusCode : Nat
  values : WeatherValues
deriving DecidableEq

/-- The dictionary `get_weather` returns (keys `temperature`, `description`). -/
structure WeatherReading where
  temperature : String
  description : String
deriving DecidableEq

/-- The dummy response returned when no weather key is configured
(`src/weather.py` line 114). -/
def sunnyFallback : WeatherReading := { temperature := "21 °C", description := "Sunny" }

/-- The `code_lookup` table (`src/weather.py` lines 129-153): tomorrow.io
weather codes to condition names. -/
def code_lookup : List (Int × String) :=
  [(1000, "Clear, Sunny"),
   (1100, "Mostly Clear"),
   (1101, "Partly Cloudy"),
   (1102, "Mostly Cloudy"),
   (1001, "Cloudy"),
   (2000, "Fog"),
   (2100, "Light Fog"),
   (4000, "Drizzle"),
   (4001, "Rain"),
   (4200, "Light Rain"),
   (4201, "Heavy Rain"),
   (5000, "Snow"),
   (5001, "Flurries"),
   (5100, "Light Snow"),
   (5101, "Heavy Snow"),
   (6000, "Freezing Drizzle"),
   (6001, "Freezing Rain"),
   (6200, "Light Freezing Rain"),
   (6201, "Heavy Freezing Rain"),
   (7000, "Ice Pellets"),
   (7101, "Heavy Ice Pellets"),
   (7102, "Light Ice Pellets"),
   (8000, "Thunderstorm")]

/-- Rounding to the nearest integer with ties to even, as Python's
fixed-point `format` does for exact decimal inputs, computed on the
numerator and denominator: `f` is the floor of `q`, and the fractional part
`r / den` is compared against one half. -/
def pyRound (q : ℚ) : Int :=
  let f : Int := q.num.fdiv q.den
  let r : Int := q.num - f * q.den
  if 2 * r < (q.den : Int) then f
  else if (q.den : Int) < 2 * r then f + 1
  else if f % 2 = 0 then f else f + 1

/-- The Python format specifier `0.0f` applied to a rational: round to zero
decimal places and render the integer; a negative value rounding to zero
renders as `-0`, as CPython does. -/
def pyFormat_0f (q : ℚ) : String :=
  let n := pyRound q
  if q.num < 0 ∧ n = 0 then "-0" else toString n

/-- Embedding of `get_weather` (`src/weather.py` lines 103-157): with no
`weather_api_key` it returns the dummy reading without touching the network;
otherwise it performs the request, propagates any non-2xx status — 1xx and
3xx included, since the httpx client raises `HTTPStatusError` whenever the
status is not a success — as an exception, and renders
`temperatureApparent` through the `0.0f` format with a `°C` suffix next to
the `code_lookup` name of the weather code, defaulting to `Unknown`. -/
def get_weather (deps : Deps) (_lat _lng : ℚ) (net : WeatherResponse) :
    ToolOutcome WeatherReading × Bool :=
  match deps.weather_api_key with
  | none => (.success sunnyFallback, false)
  | some _ =>
    if net.statusCode < 200 ∨ 300 ≤ net.statusCode then (.httpError net.statusCode, true)
    else
      (.success
        { temperature := pyFormat_0f net.values.temperatureApparent ++ "°C",
          description := ((code_lookup.lookup net.values.weatherCode).getD "Unknown") },
        true)

/-! ### Output validation

Validation of the candidate final answer against `List[Structured_Output]`
is performed by the pydantic runtime, which is not part of this repository.
-/

/-- The field names `Structured_Output` declares, in declaration order
(`src/weather.py` lines 19-22). -/
def RequiredFields : List String := ["location", "temperature", "aqi", "description"]

/-- Modelled from the spec: coercion of a field value to the declared integer
type of `aqi` — "numeric aqi must parse as an integer" — performed by the
pydantic runtime, which is missing from `src/`.  An integer is accepted as
is; a string is accepted when it parses as an integer; nothing else is. -/
def coerceInt : JValue → Option Int
  | .int n => some n
  | .str s => s.toInt?
  | _ => none

/-- Modelled from the spec: acceptance of a free-text field — "free-text
fields must be non-empty strings" — performed by the pydantic runtime, which
is missing from `src/`. -/
def asNonEmptyStr : JValue → Option String
  | .str s => if s = "" then none else some s
  | _ => none

/-- Modelled from the spec: "each element has exactly the required fields" —
the element's field names are exactly the declared ones, in any order. -/
def exactFieldNames (fs : List (String × JValue)) : Bool :=
  (fs.map Prod.fst).isPerm RequiredFields

/-- Modelled from the spec (§4.5 Output Validator), the per-element check the
pydantic runtime performs against `Structured_Output`: the element is an
object with exactly the four declared fields, its free-text fields hold
non-empty strings, and its `aqi` field is coercible to an integer. -/
def validateElement : JValue → Option Structured_Output
  | .obj fs =>
    if exactFieldNames fs then
      ((fs.lookup "location").bind asNonEmptyStr).bind fun l2 =>
      ((fs.lookup "temperature").bind asNonEmptyStr).bind fun t2 =>
      ((fs.lookup "aqi").bind coerceInt).bind fun a2 =>
      ((fs.lookup "description").bind asNonEmptyStr).bind fun d2 =>
      some { location := l2, temperature := t2, aqi := a2, description := d2 }
    else none
  | _ => none

/-- Validation of a list of candidate elements, element by element; any
failing element fails the whole candidate. -/
def validateList : List JValue → Option (List Structured_Output)
  | [] => some []
  | v :: vs =>
    match validateElement v, validateList vs with
    | some i, some is => some (i :: is)
    | _, _ => none

/-- Modelled from the spec (§4.5): validation of a candidate final answer
against the declared output type `List[Structured_Output]`
(`src/weather.py` line 48): the candidate must be a sequence and every
element must validate.  `none` is a ValidationError, which the controller
treats as retryable. -/
def validateOutput : JValue → Option (List Structured_Output)
  | .arr xs => validateList xs
  | _ => none

/-! ### The retry controller

The orchestration loop itself lives in the pydantic_ai runtime, outside this
repository; it is modelled from the spec (§4.6 Retry Controller), with the
retry bound taken from the source (`retries=2`, `src/weather.py` line 46).
-/

/-- Modelled from the spec (§4.6): the phases of a run.  `validating` carries
the candidate being checked, `done` the validated output. -/
inductive RunPhase where
  | planning
  | dispatching (results : List ToolResultKind)
  | validating (candidate : JValue)
  | done (out : List Structured_Output)
  | aborted

/-- A run state: current phase and the retry count consumed so far. -/
structure RunState where
  phase : RunPhase
  retryCount : Nat

/-- The initial state of every run: planning, zero retries consumed. -/
def initState : RunState := { phase := .planning, retryCount := 0 }

/-- Modelled from the spec (§4.6): one transition of the retry controller.
`planning` moves to `dispatching` (the planner requested calls, whose
execution produced the recorded result kinds) or to `validating` (the
planner produced a candidate answer).  A fatal tool result aborts; an
all-success round returns to planning; a retryable tool result and a
validation failure each increment the single shared retry count and return
to planning while the count stays below the bound, aborting once it
reaches it. -/
inductive Step : RunState → RunState → Prop
  | planCalls (n : Nat) (rs : List ToolResultKind) :
      Step ⟨.planning, n⟩ ⟨.dispatching rs, n⟩
  | planAnswer (n : Nat) (c : JValue) :
      Step ⟨.planning, n⟩ ⟨.validating c, n⟩
  | dispatchFatal (n : Nat) (rs : List ToolResultKind) :
      ToolResultKind.fatal ∈ rs →
      Step ⟨.dispatching rs, n⟩ ⟨.aborted, n⟩
  | dispatchOk (n : Nat) (rs : List ToolResultKind) :
      ToolResultKind.fatal ∉ rs → ToolResultKind.retryable ∉ rs →
      Step ⟨.dispatching rs, n⟩ ⟨.planning, n⟩
  | dispatchRetry (n : Nat) (rs : List ToolResultKind) :
      ToolResultKind.fatal ∉ rs → ToolResultKind.retryable ∈ rs →
      n + 1 < weather_agent.retries →
      Step ⟨.dispatching rs, n⟩ ⟨.planning, n + 1⟩
  | dispatchExhausted (n : Nat) (rs : List ToolResultKind) :
      ToolResultKind.fatal ∉ rs → ToolResultKind.retryable ∈ rs →
      weather_agent.retries ≤ n + 1 →
      Step ⟨.dispatching rs, n⟩ ⟨.aborted, n + 1⟩
  | validateOk (n : Nat) (c : JValue) (out : List Structured_Output) :
      validateOutput c = some out →
      Step ⟨.validating c, n⟩ ⟨.done out, n⟩
  | validateRetry (n : Nat) (c : JValue) :
      validateOutput c = none →
      n + 1 < weather_agent.retries →
      Step ⟨.validating c, n⟩ ⟨.planning, n + 1⟩
  | validateExhausted (n : Nat) (c : JValue) :
      validateOutput c = none →
      weather_agent.retries ≤ n + 1 →
      Step ⟨.validating c, n⟩ ⟨.aborted, n + 1⟩

/-- The states a run can be in: reflexive-transitive closure of `Step` from
the initial state. -/
def Reachable (s : RunState) : Prop := Relation.ReflTransGen Step initState s

/-! ### Claim-side predicates and concrete values used by the theorems -/

/-- The property C2 asserts of a field value bound for the declared integer
`aqi`: it is an integer, or a string that parses as one. -/
def CoercibleInt (v : JValue) : Prop :=
  (∃ n : Int, v = .int n) ∨ (∃ s n, v = .str s ∧ s.toInt? = some n)

/-- The property C2 asserts of a free-text field value: a non-empty string. -/
def NonEmptyStr (v : JValue) : Prop :=
  ∃ s : String, v = .str s ∧ s ≠ ""

/-- The property C2 asserts of one candidate element: an object whose field
names are exactly the four declared ones, whose free-text fields hold
non-empty strings and whose aqi field is coercible to an integer. -/
def ElementOK (v : JValue) : Prop :=
  ∃ fs, v = .obj fs ∧ (fs.map Prod.fst).Perm RequiredFields ∧
    (∀ w, fs.lookup "location" = some w → NonEmptyStr w) ∧
    (∀ w, fs.lookup "temperature" = some w → NonEmptyStr w) ∧
    (∀ w, fs.lookup "aqi" = some w → CoercibleInt w) ∧
    (∀ w, fs.lookup "description" = some w → NonEmptyStr w)

/-- The property C2 asserts of a whole candidate: a sequence all of whose
elements satisfy `ElementOK`. -/
def OutputOK (c : JValue) : Prop :=
  ∃ xs, c = .arr xs ∧ ∀ v ∈ xs, ElementOK v

/-- A concrete credential-less dependency bundle, used to instantiate the
general theorems. -/
def depsNone : Deps := { weather_api_key := none, geo_api_key := none, aqi_api_key := none }

/-- The rational 43/2 = 21.5, written out with its reducedness proofs so
that it evaluates by kernel reduction. -/
def ratHalf43 : ℚ := ⟨43, 2, by decide, by decide⟩

/-- The candidate C3 is about: the planner faithfully reports the absent
air-quality reading by putting the absent value (null) in the aqi field. -/
def unknownAqiCandidate : JValue :=
  .arr [.obj [("location", .str "Amsterdam"), ("temperature", .str "21 °C"),
              ("aqi", .null), ("description", .str "Sunny")]]

/-- The same candidate with an integer aqi, which does validate. -/
def goodCandidate : JValue :=
  .arr [.obj [("location", .str "Amsterdam"), ("temperature", .str "21 °C"),
              ("aqi", .int 42), ("description", .str "Sunny")]]

/-- The validated output of `goodCandidate`. -/
def goodOutput : List Structured_Output :=
  [{ location := "Amsterdam", temperature := "21 °C", aqi := 42, description := "Sunny" }]

/-- Whether an upstream waqi.info response rejects the request rather than
granting it: a transport failure, or an object body whose status is not
"ok" — what an unauthenticated request (no credential configured)
observes. -/
def unauthRejected : AqiNet → Bool
  | .requestError => true
  | .ok body =>
    match body with
    | .obj fs => !(isStatusOk fs)
    | _ => false

/-! ### Theorems about the tools -/

/-- C5: with its credential absent, `get_lat_lng` returns the fixed fallback
coordinate `lat = 51.1, lng = -0.1` (London) for every location description,
and `get_weather` returns the fixed fallback reading
`temperature = "21 °C", description = "Sunny"` for every coordinate pair —
in both cases independent of the upstream response and without performing a
network operation. -/
theorem get_lat_lng_get_weather_fallback (d1 d2 : Deps)
    (h1 : d1.geo_api_key = none) (h2 : d2.weather_api_key = none) :
    (∀ loc net, get_lat_lng d1 loc net = (.success londonFallback, false)) ∧
    (∀ lat lng net, get_weather d2 lat lng net = (.success sunnyFallback, false)) := by
  constructor
  · intro loc net
    simp [get_lat_lng, h1]
  · intro lat lng net
    simp [get_weather, h2]

/-- Witness for C5 at concrete inputs: no geocoding key yields the London
fallback on the query "Amsterdam", and no weather key yields the sunny
fallback, whatever the upstream would have answered. -/
theorem get_lat_lng_get_weather_fallback_witness :
    get_lat_lng depsNone "Amsterdam" ⟨200, [⟨52.4, 4.9⟩]⟩ = (.success londonFallback, false) ∧
    get_weather depsNone 52.4 4.9 ⟨200, ⟨10, 12, 4001⟩⟩ = (.success sunnyFallback, false) :=
  ⟨(get_lat_lng_get_weather_fallback depsNone depsNone rfl rfl).1 "Amsterdam" ⟨200, [⟨52.4, 4.9⟩]⟩,
   (get_lat_lng_get_weather_fallback depsNone depsNone rfl rfl).2 52.4 4.9 ⟨200, ⟨10, 12, 4001⟩⟩⟩

/-- C6: with a geocoding credential configured, when the lookup succeeds
(2xx status, so `raise_for_status` passes) but the match list is empty,
`get_lat_lng` raises `ModelRetry` — a retryable failure — with the guidance
text "Could not find the location". -/
theorem get_lat_lng_empty_retryable (d : Deps) (k : String)
    (h : d.geo_api_key = some k) (loc : String) (net : GeoResponse)
    (hs : 200 ≤ net.statusCode ∧ net.statusCode < 300) (hd : net.data = []) :
    get_lat_lng d loc net = (.modelRetry "Could not find the location", true) := by
  have hok : ¬(net.statusCode < 200 ∨ 300 ≤ net.statusCode) := by omega
  simp [get_lat_lng, h, hok, hd]

/-- Witness for C6: a configured key, a 200 response with an empty match
list, at a concrete location description. -/
theorem get_lat_lng_empty_retryable_witness :
    get_lat_lng { weather_api_key := none, geo_api_key := some "gk", aqi_api_key := none }
      "Nowhereville" ⟨200, []⟩ = (.modelRetry "Could not find the location", true) :=
  get_lat_lng_empty_retryable _ "gk" rfl "Nowhereville" ⟨200, []⟩ (by decide) rfl

/-- C9: with a geocoding credential configured and a successful lookup (2xx
status) whose match list is non-empty, `get_lat_lng` returns the
coordinates of the first match, ignoring all later matches. -/
theorem get_lat_lng_first_match (d : Deps) (k : String)
    (h : d.geo_api_key = some k) (loc : String) (net : GeoResponse)
    (hs : 200 ≤ net.statusCode ∧ net.statusCode < 300)
    (e : GeoEntry) (rest : List GeoEntry)
    (hd : net.data = e :: rest) :
    get_lat_lng d loc net = (.success { lat := e.lat, lng := e.lon }, true) := by
  have hok : ¬(net.statusCode < 200 ∨ 300 ≤ net.statusCode) := by omega
  simp [get_lat_lng, h, hok, hd]

/-- Witness for C9: two matches; the first one's coordinates are returned. -/
theorem get_lat_lng_first_match_witness :
    get_lat_lng { weather_api_key := none, geo_api_key := some "gk", aqi_api_key := none }
      "Springfield" ⟨200, [⟨39.8, -89.6⟩, ⟨44.0, -123.0⟩]⟩
      = (.success { lat := 39.8, lng := -89.6 }, true) :=
  get_lat_lng_first_match _ "gk" rfl "Springfield" ⟨200, [⟨39.8, -89.6⟩, ⟨44.0, -123.0⟩]⟩
    (by decide) ⟨39.8, -89.6⟩ [⟨44.0, -123.0⟩] rfl

/-- C8: with a weather credential configured and a successful upstream call
(2xx status), `get_weather` maps the upstream weather code through the
fixed `code_lookup` vocabulary: a mapped code yields its vocabulary name as
the description, and any unmapped code yields the literal description
"Unknown"; either way the tool succeeds. -/
theorem get_weather_code_vocabulary (d : Deps) (k : String)
    (h : d.weather_api_key = some k) (lat lng : ℚ) (net : WeatherResponse)
    (hs : 200 ≤ net.statusCode ∧ net.statusCode < 300) :
    (∀ nm, code_lookup.lookup net.values.weatherCode = some nm →
      get_weather d lat lng net =
        (.success { temperature := pyFormat_0f net.values.temperatureApparent ++ "°C",
                    description := nm }, true)) ∧
    (code_lookup.lookup net.values.weatherCode = none →
      get_weather d lat lng net =
        (.success { temperature := pyFormat_0f net.values.temperatureApparent ++ "°C",
                    description := "Unknown" }, true)) := by
  have hok : ¬(net.statusCode < 200 ∨ 300 ≤ net.statusCode) := by omega
  constructor
  · intro nm hnm
    simp [get_weather, h, hok, hnm]
  · intro hnone
    simp [get_weather, h, hok, hnone]

/-- Witness for C8: code 4001 maps to "Rain"; the unmapped code 9999 yields
the literal "Unknown" description. -/
theorem get_weather_code_vocabulary_witness :
    get_weather { weather_api_key := some "wk", geo_api_key := none, aqi_api_key := none }
      51.1 (-0.1) ⟨200, ⟨10, 12, 4001⟩⟩
      = (.success { temperature := "12°C", description := "Rain" }, true) ∧
    get_weather { weather_api_key := some "wk", geo_api_key := none, aqi_api_key := none }
      51.1 (-0.1) ⟨200, ⟨10, 12, 9999⟩⟩
      = (.success { temperature := "12°C", description := "Unknown" }, true) := by
  constructor
  · have h := (get_weather_code_vocabulary
      { weather_api_key := some "wk", geo_api_key := none, aqi_api_key := none }
      "wk" rfl 51.1 (-0.1) ⟨200, ⟨10, 12, 4001⟩⟩ (by decide)).1 "Rain" (by decide)
    rw [h]
    decide
  · have h := (get_weather_code_vocabulary
      { weather_api_key := some "wk", geo_api_key := none, aqi_api_key := none }
      "wk" rfl 51.1 (-0.1) ⟨200, ⟨10, 12, 9999⟩⟩ (by decide)).2 (by decide)
    rw [h]
    decide

/-- C10: with a weather credential configured and a successful upstream call
(2xx status), the temperature string `get_weather` returns is the upstream
`temperatureApparent` (feels-like) value rendered through the `0.0f` format
and suffixed with `°C`; the result is independent of the upstream actual
`temperature` field. -/
theorem get_weather_uses_temperatureApparent (d : Deps) (k : String)
    (h : d.weather_api_key = some k) (lat lng : ℚ) (net : WeatherResponse)
    (hs : 200 ≤ net.statusCode ∧ net.statusCode < 300) :
    (∃ r, get_weather d lat lng net = (.success r, true) ∧
      r.temperature = pyFormat_0f net.values.temperatureApparent ++ "°C") ∧
    (∀ t : ℚ,
      get_weather d lat lng
          { net with values := { net.values with temperature := t } }
        = get_weather d lat lng net) := by
  have hok : ¬(net.statusCode < 200 ∨ 300 ≤ net.statusCode) := by omega
  constructor
  · exact ⟨{ temperature := pyFormat_0f net.values.temperatureApparent ++ "°C",
             description := (code_lookup.lookup net.values.weatherCode).getD "Unknown" },
           by simp [get_weather, h, hok], rfl⟩
  · intro t
    simp [get_weather, h, hok]

/-- Witness for C10: upstream reports an actual temperature of 10 but a
feels-like temperature of 21.5; the rendered string is "22°C" (ties round
to even), computed from the feels-like value and unchanged when the actual
temperature changes to 99. -/
theorem get_weather_uses_temperatureApparent_witness :
    (∃ r, get_weather { weather_api_key := some "wk", geo_api_key := none, aqi_api_key := none }
        51.1 (-0.1) ⟨200, ⟨10, ratHalf43, 1000⟩⟩ = (.success r, true) ∧
      r.temperature = "22°C") ∧
    get_weather { weather_api_key := some "wk", geo_api_key := none, aqi_api_key := none }
        51.1 (-0.1) ⟨200, ⟨99, ratHalf43, 1000⟩⟩
      = get_weather { weather_api_key := some "wk", geo_api_key := none, aqi_api_key := none }
        51.1 (-0.1) ⟨200, ⟨10, ratHalf43, 1000⟩⟩ := by
  constructor
  · obtain ⟨r, hr, ht⟩ := (get_weather_uses_temperatureApparent
      { weather_api_key := some "wk", geo_api_key := none, aqi_api_key := none }
      "wk" rfl 51.1 (-0.1) ⟨200, ⟨10, ratHalf43, 1000⟩⟩ (by decide)).1
    refine ⟨r, hr, ?_⟩
    rw [ht]
    decide
  · exact (get_weather_uses_temperatureApparent
      { weather_api_key := some "wk", geo_api_key := none, aqi_api_key := none }
      "wk" rfl 51.1 (-0.1) ⟨200, ⟨10, ratHalf43, 1000⟩⟩ (by decide)).2 99

/-- C7 counterexample: a success response carrying the object body with
status "ok" and the number 5 under "data" — a response that lacks any aqi
field — makes `get_aqi` raise an uncaught TypeError at the membership test
`"aqi" in data["data"]` instead of returning the absent value: a fatal
outcome, refuting the claim that such a response yields None. -/
theorem get_aqi_crashes_on_nonobject_data :
    get_aqi depsNone 51.1 (-0.1)
        (.ok (.obj [("status", .str "ok"), ("data", .int 5)]))
      = (.pyError "TypeError", true) ∧
    toolKind (get_aqi depsNone 51.1 (-0.1)
        (.ok (.obj [("status", .str "ok"), ("data", .int 5)]))).1
      = ToolResultKind.fatal :=
  ⟨rfl, rfl⟩

/-- C7 amended: `get_aqi` returns the absent value None, never failing, on
any transport-level request error, on any object response whose status is
not "ok", on one lacking the data key, and on one whose data object lacks
the aqi key; but it is not exception-free on every input: a response whose
body is not a JSON object raises an uncaught AttributeError, and one whose
data member is a non-container value raises an uncaught TypeError — both
escape the handler, which catches only request exceptions. -/
theorem get_aqi_error_handling (d : Deps) (lat lon : ℚ) :
    get_aqi d lat lon .requestError = (.success none, true) ∧
    (∀ fs, isStatusOk fs = false →
      get_aqi d lat lon (.ok (.obj fs)) = (.success none, true)) ∧
    (∀ fs, isStatusOk fs = true → fs.lookup "data" = none →
      get_aqi d lat lon (.ok (.obj fs)) = (.success none, true)) ∧
    (∀ fs dfs, isStatusOk fs = true → fs.lookup "data" = some (.obj dfs) →
      dfs.lookup "aqi" = none →
      get_aqi d lat lon (.ok (.obj fs)) = (.success none, true)) ∧
    (∀ fs n, isStatusOk fs = true → fs.lookup "data" = some (.int n) →
      get_aqi d lat lon (.ok (.obj fs)) = (.pyError "TypeError", true)) ∧
    (∀ n, get_aqi d lat lon (.ok (.int n)) = (.pyError "AttributeError", true)) := by
  refine ⟨rfl, ?_, ?_, ?_, ?_, ?_⟩
  · intro fs hfs
    simp [get_aqi, hfs]
  · intro fs hfs hd
    simp [get_aqi, hfs, hd]
  · intro fs dfs hfs hd ha
    simp [get_aqi, hfs, hd, ha]
  · intro fs n hfs hd
    simp [get_aqi, hfs, hd]
  · intro n
    rfl

/-- Witness for amended C7: a transport failure, an object body with status
"error", one with status "ok" and no data key, one whose data object has no
aqi key, and a bare-number body, evaluated concretely. -/
theorem get_aqi_error_handling_witness :
    get_aqi depsNone 51.1 (-0.1) .requestError = (.success none, true) ∧
    get_aqi depsNone 51.1 (-0.1) (.ok (.obj [("status", .str "error")]))
      = (.success none, true) ∧
    get_aqi depsNone 51.1 (-0.1) (.ok (.obj [("status", .str "ok")]))
      = (.success none, true) ∧
    get_aqi depsNone 51.1 (-0.1)
        (.ok (.obj [("status", .str "ok"), ("data", .obj [("idx", .int 7)])]))
      = (.success none, true) ∧
    get_aqi depsNone 51.1 (-0.1) (.ok (.int 3)) = (.pyError "AttributeError", true) :=
  ⟨(get_aqi_error_handling depsNone 51.1 (-0.1)).1,
   (get_aqi_error_handling depsNone 51.1 (-0.1)).2.1 [("status", .str "error")] rfl,
   (get_aqi_error_handling depsNone 51.1 (-0.1)).2.2.1 [("status", .str "ok")] rfl rfl,
   (get_aqi_error_handling depsNone 51.1 (-0.1)).2.2.2.1 [("status", .str "ok"),
     ("data", .obj [("idx", .int 7)])] [("idx", .int 7)] rfl rfl rfl,
   (get_aqi_error_handling depsNone 51.1 (-0.1)).2.2.2.2.2 3⟩

/-! ### Theorems about output validation -/

/-- A lookup over an association list succeeds exactly for the keys present
in it. -/
theorem exists_lookup_iff_mem (fs : List (String × JValue)) (a : String) :
    (∃ v, fs.lookup a = some v) ↔ a ∈ fs.map Prod.fst := by
  induction fs with
  | nil => simp [List.lookup]
  | cons p rest ih =>
    by_cases hp : a = p.1
    · subst hp
      simp [List.lookup]
    · have hbeq : (a == p.1) = false := beq_false_of_ne hp
      simp [List.lookup, hbeq, ih, hp]

/-- `coerceInt` succeeds exactly on the values C2 calls coercible to an
integer. -/
theorem coerceInt_isSome_iff (v : JValue) :
    (∃ n, coerceInt v = some n) ↔ CoercibleInt v := by
  cases v <;> simp [coerceInt, CoercibleInt]

/-- `asNonEmptyStr` succeeds exactly on non-empty strings. -/
theorem asNonEmptyStr_isSome_iff (v : JValue) :
    (∃ s, asNonEmptyStr v = some s) ↔ NonEmptyStr v := by
  cases v with
  | str s =>
    by_cases hs : s = "" <;> simp [asNonEmptyStr, NonEmptyStr, hs]
  | null => simp [asNonEmptyStr, NonEmptyStr]
  | bool b => simp [asNonEmptyStr, NonEmptyStr]
  | int n => simp [asNonEmptyStr, NonEmptyStr]
  | arr xs => simp [asNonEmptyStr, NonEmptyStr]
  | obj fs => simp [asNonEmptyStr, NonEmptyStr]

/-- The per-element validator succeeds exactly on elements satisfying
`ElementOK`. -/
theorem validateElement_isSome_iff (v : JValue) :
    (∃ i, validateElement v = some i) ↔ ElementOK v := by
  cases v with
  | obj fs =>
    by_cases hex : exactFieldNames fs = true
    · have hperm : (fs.map Prod.fst).Perm RequiredFields :=
        List.isPerm_iff.mp hex
      constructor
      · rintro ⟨i, hi⟩
        simp only [validateElement, if_pos hex, Option.bind_eq_some] at hi
        obtain ⟨l2, ⟨l, hl, hl2⟩, t2, ⟨t, ht, ht2⟩, a2, ⟨a, ha, ha2⟩,
          d2, ⟨d, hd, hd2⟩, _⟩ := hi
        refine ⟨fs, rfl, hperm, ?_, ?_, ?_, ?_⟩
        · intro w hw
          rw [Option.some.inj (hw.symm.trans hl)]
          exact (asNonEmptyStr_isSome_iff l).mp ⟨l2, hl2⟩
        · intro w hw
          rw [Option.some.inj (hw.symm.trans ht)]
          exact (asNonEmptyStr_isSome_iff t).mp ⟨t2, ht2⟩
        · intro w hw
          rw [Option.some.inj (hw.symm.trans ha)]
          exact (coerceInt_isSome_iff a).mp ⟨a2, ha2⟩
        · intro w hw
          rw [Option.some.inj (hw.symm.trans hd)]
          exact (asNonEmptyStr_isSome_iff d).mp ⟨d2, hd2⟩
      · rintro ⟨fs2, heq, _, hloc, htemp, haqi, hdesc⟩
        injection heq with hfs
        subst hfs
        have hmem : ∀ a ∈ RequiredFields, ∃ v, fs.lookup a = some v := by
          intro a ha
          exact (exists_lookup_iff_mem fs a).mpr (hperm.mem_iff.mpr ha)
        obtain ⟨l, hl⟩ := hmem "location" (by simp [RequiredFields])
        obtain ⟨t, ht⟩ := hmem "temperature" (by simp [RequiredFields])
        obtain ⟨a, ha⟩ := hmem "aqi" (by simp [RequiredFields])
        obtain ⟨d, hd⟩ := hmem "description" (by simp [RequiredFields])
        obtain ⟨l2, hl2⟩ := (asNonEmptyStr_isSome_iff l).mpr (hloc l hl)
        obtain ⟨t2, ht2⟩ := (asNonEmptyStr_isSome_iff t).mpr (htemp t ht)
        obtain ⟨a2, ha2⟩ := (coerceInt_isSome_iff a).mpr (haqi a ha)
        obtain ⟨d2, hd2⟩ := (asNonEmptyStr_isSome_iff d).mpr (hdesc d hd)
        refine ⟨⟨l2, t2, a2, d2⟩, ?_⟩
        simp only [validateElement, if_pos hex, Option.bind_eq_some]
        exact ⟨l2, ⟨l, hl, hl2⟩, t2, ⟨t, ht, ht2⟩, a2, ⟨a, ha, ha2⟩,
          d2, ⟨d, hd, hd2⟩, rfl⟩
    · constructor
      · rintro ⟨i, hi⟩
        simp [validateElement, if_neg hex] at hi
      · rintro ⟨fs2, heq, hperm, _⟩
        injection heq with hfs
        subst hfs
        exact absurd (List.isPerm_iff.mpr hperm) hex
  | null => simp [validateElement, ElementOK]
  | bool b => simp [validateElement, ElementOK]
  | int n => simp [validateElement, ElementOK]
  | str s => simp [validateElement, ElementOK]
  | arr xs => simp [validateElement, ElementOK]

/-- The list validator succeeds exactly when every element validates. -/
theorem validateList_isSome_iff (xs : List JValue) :
    (∃ l, validateList xs = some l) ↔ ∀ v ∈ xs, ElementOK v := by
  induction xs with
  | nil => simp [validateList]
  | cons v vs ih =>
    constructor
    · rintro ⟨l, hl⟩
      simp only [validateList] at hl
      cases hv : validateElement v with
      | none => rw [hv] at hl; simp at hl
      | some i =>
        rw [hv] at hl
        cases hvs : validateList vs with
        | none => rw [hvs] at hl; simp at hl
        | some is =>
          intro w hw
          rcases List.mem_cons.mp hw with hw | hw
          · subst hw
            exact (validateElement_isSome_iff w).mp ⟨i, hv⟩
          · exact (ih.mp ⟨is, hvs⟩) w hw
    · intro h
      obtain ⟨i, hi⟩ := (validateElement_isSome_iff v).mpr (h v (by simp))
      obtain ⟨is, his⟩ := ih.mpr (fun w hw => h w (List.mem_cons_of_mem v hw))
      exact ⟨i :: is, by simp [validateList, hi, his]⟩

/-- C2: a candidate final answer validates exactly when it is a sequence in
which every element has exactly the four declared fields with aqi coercible
to an integer and non-empty free-text strings; and a candidate failing
validation is never silently accepted: from the validating phase it sends
the controller to a re-plan or an abort, never to Done. -/
theorem validateOutput_iff_OutputOK :
    (∀ c, (∃ out, validateOutput c = some out) ↔ OutputOK c) ∧
    (∀ n c s2, validateOutput c = none → Step ⟨.validating c, n⟩ s2 →
      s2.phase = RunPhase.planning ∨ s2.phase = RunPhase.aborted) := by
  constructor
  · intro c
    cases c with
    | arr xs => simpa [validateOutput, OutputOK] using validateList_isSome_iff xs
    | null => simp [validateOutput, OutputOK]
    | bool b => simp [validateOutput, OutputOK]
    | int n => simp [validateOutput, OutputOK]
    | str s => simp [validateOutput, OutputOK]
    | obj fs => simp [validateOutput, OutputOK]
  · intro n c s2 hval hstep
    cases hstep with
    | validateOk _ _ out hsome => rw [hval] at hsome; cases hsome
    | validateRetry _ _ _ _ => left; rfl
    | validateExhausted _ _ _ _ => right; rfl

/-- Witness for C2: the null-aqi candidate fails validation, so the step the
controller takes from validating it (here: the first retry) does not land in
Done; and the integer-aqi candidate validates to its structured output. -/
theorem validateOutput_iff_OutputOK_witness :
    ((⟨RunPhase.planning, 1⟩ : RunState).phase = RunPhase.planning ∨
      (⟨RunPhase.planning, 1⟩ : RunState).phase = RunPhase.aborted) ∧
    ((∃ out, validateOutput goodCandidate = some out) ↔ OutputOK goodCandidate) :=
  ⟨validateOutput_iff_OutputOK.2 0 unknownAqiCandidate ⟨RunPhase.planning, 1⟩ (by decide)
      (Step.validateRetry 0 unknownAqiCandidate (by decide) (by decide)),
    validateOutput_iff_OutputOK.1 goodCandidate⟩

/-- C3 counterexample: the output schema's aqi field cannot represent the
absent reading — the candidate that carries the absent value (null) in its
aqi field, all other fields valid, is rejected by validation. -/
theorem unknownAqi_fails_validation : validateOutput unknownAqiCandidate = none := by
  decide

/-- C3 amended: an absent air-quality reading never by itself aborts the run
— `get_aqi` returns it as a successful `None` result — but the aqi field of
the declared output schema is a required integer that cannot represent the
absent value: a candidate carrying null aqi fails validation, and the schema
is satisfied only by supplying some integer aqi. -/
theorem aqi_absent_degraded (d : Deps) (lat lon : ℚ) :
    get_aqi d lat lon .requestError = (.success none, true) ∧
    toolKind (get_aqi d lat lon .requestError).1 = ToolResultKind.success ∧
    validateOutput unknownAqiCandidate = none ∧
    validateOutput goodCandidate = some goodOutput :=
  ⟨rfl, rfl, by decide, by decide⟩

/-! ### Theorems about the retry controller -/

/-- One controller step preserves the retry-budget invariant: the count stays
within the configured bound, and a count that has reached the bound only
occurs in the Aborted phase. -/
theorem step_preserves_budget {a b : RunState} (h : Step a b)
    (ha : a.retryCount ≤ weather_agent.retries ∧
      (a.retryCount = weather_agent.retries → a.phase = RunPhase.aborted)) :
    b.retryCount ≤ weather_agent.retries ∧
      (b.retryCount = weather_agent.retries → b.phase = RunPhase.aborted) := by
  obtain ⟨h1, h2⟩ := ha
  cases h with
  | planCalls n rs =>
    exact ⟨h1, fun hn => absurd (h2 hn) (by simp)⟩
  | planAnswer n c =>
    exact ⟨h1, fun hn => absurd (h2 hn) (by simp)⟩
  | dispatchFatal n rs hf =>
    exact ⟨h1, fun _ => rfl⟩
  | dispatchOk n rs hf hr =>
    exact ⟨h1, fun hn => absurd (h2 hn) (by simp)⟩
  | dispatchRetry n rs hf hr hlt =>
    exact ⟨Nat.le_of_lt hlt, fun hn => absurd hn (Nat.ne_of_lt hlt)⟩
  | dispatchExhausted n rs hf hr hge =>
    have hn : n ≠ weather_agent.retries := fun hn => absurd (h2 hn) (by simp)
    exact ⟨Nat.succ_le_of_lt (Nat.lt_of_le_of_ne h1 hn), fun _ => rfl⟩
  | validateOk n c out hsome =>
    exact ⟨h1, fun hn => absurd (h2 hn) (by simp)⟩
  | validateRetry n c hval hlt =>
    exact ⟨Nat.le_of_lt hlt, fun hn => absurd hn (Nat.ne_of_lt hlt)⟩
  | validateExhausted n c hval hge =>
    have hn : n ≠ weather_agent.retries := fun hn => absurd (h2 hn) (by simp)
    exact ⟨Nat.succ_le_of_lt (Nat.lt_of_le_of_ne h1 hn), fun _ => rfl⟩

/-- C1: the retry budget is the single configured constant 2 of
`weather_agent`, shared by the controller across tool-level retryable
failures and validation failures (both increment the same count); in every
reachable run state the retry count never exceeds that bound, and a state
whose count has reached the bound is in the fatal Aborted phase, never about
to retry again. -/
theorem retry_budget_invariant :
    weather_agent.retries = 2 ∧
    ∀ s, Reachable s →
      s.retryCount ≤ weather_agent.retries ∧
      (s.retryCount = weather_agent.retries → s.phase = RunPhase.aborted) := by
  refine ⟨rfl, ?_⟩
  intro s h
  induction h with
  | refl => exact ⟨Nat.zero_le _, fun h0 => absurd h0 (by decide)⟩
  | tail _ hstep ih => exact step_preserves_budget hstep ih

/-- Witness for C1: the theorem applied at the initial state, which is
reachable by the empty run. -/
theorem retry_budget_invariant_witness :
    initState.retryCount ≤ weather_agent.retries ∧
    (initState.retryCount = weather_agent.retries → initState.phase = RunPhase.aborted) :=
  retry_budget_invariant.2 initState Relation.ReflTransGen.refl

/-- C4: with every credential absent, each tool returns its documented
fallback instead of failing — `get_lat_lng` the London coordinate and
`get_weather` the sunny reading, each for every response; `get_aqi` the
absent reading, with a success outcome, on every response an
unauthenticated request observes (the upstream rejects the request: a
transport failure or an error-status body) — and a run over these tools
reaches the terminal success state Done: absent credentials alone never
force Aborted. -/
theorem no_credentials_reaches_done (d : Deps)
    (hw : d.weather_api_key = none) (hg : d.geo_api_key = none)
    (_ha : d.aqi_api_key = none) :
    (∀ loc net, get_lat_lng d loc net = (.success londonFallback, false)) ∧
    (∀ lat lng net, get_weather d lat lng net = (.success sunnyFallback, false)) ∧
    (∀ lat lon net, unauthRejected net = true →
      get_aqi d lat lon net = (.success none, true)) ∧
    (∀ lat lon net, unauthRejected net = true →
      toolKind (get_aqi d lat lon net).1 = ToolResultKind.success) ∧
    Reachable ⟨.done goodOutput, 0⟩ := by
  have haqi : ∀ (lat lon : ℚ) (net : AqiNet), unauthRejected net = true →
      get_aqi d lat lon net = (.success none, true) := by
    intro lat lon net hun
    cases net with
    | requestError => rfl
    | ok body =>
      cases body with
      | obj fs =>
        have hb : isStatusOk fs = false := by simpa [unauthRejected] using hun
        simp [get_aqi, hb]
      | null => simp [unauthRejected] at hun
      | bool b => simp [unauthRejected] at hun
      | int n => simp [unauthRejected] at hun
      | str s2 => simp [unauthRejected] at hun
      | arr xs => simp [unauthRejected] at hun
  refine ⟨?_, ?_, haqi, ?_, ?_⟩
  · intro loc net
    simp [get_lat_lng, hg]
  · intro lat lng net
    simp [get_weather, hw]
  · intro lat lon net hun
    rw [haqi lat lon net hun]
    rfl
  · have s1 : Step initState ⟨.dispatching [.success, .success, .success], 0⟩ :=
      Step.planCalls 0 _
    have s2 : Step ⟨.dispatching [.success, .success, .success], 0⟩ ⟨.planning, 0⟩ :=
      Step.dispatchOk 0 _ (by decide) (by decide)
    have s3 : Step ⟨.planning, 0⟩ ⟨.validating goodCandidate, 0⟩ :=
      Step.planAnswer 0 _
    have s4 : Step ⟨.validating goodCandidate, 0⟩ ⟨.done goodOutput, 0⟩ :=
      Step.validateOk 0 _ _ (by decide)
    exact Relation.ReflTransGen.tail
      (Relation.ReflTransGen.tail
        (Relation.ReflTransGen.tail (Relation.ReflTransGen.single s1) s2) s3) s4

/-- Witness for C4 on the concrete credential-less bundle: the London
fallback on "Amsterdam", the sunny fallback, the absent aqi on a rejected
request, and the reachability of Done. -/
theorem no_credentials_reaches_done_witness :
    get_lat_lng depsNone "Amsterdam" ⟨200, []⟩ = (.success londonFallback, false) ∧
    get_weather depsNone 51.1 (-0.1) ⟨200, ⟨10, 12, 1000⟩⟩ = (.success sunnyFallback, false) ∧
    get_aqi depsNone 51.1 (-0.1) (.ok (.obj [("status", .str "error")]))
      = (.success none, true) ∧
    Reachable ⟨.done goodOutput, 0⟩ :=
  ⟨(no_credentials_reaches_done depsNone rfl rfl rfl).1 "Amsterdam" ⟨200, []⟩,
   (no_credentials_reaches_done depsNone rfl rfl rfl).2.1 51.1 (-0.1) ⟨200, ⟨10, 12, 1000⟩⟩,
   (no_credentials_reaches_done depsNone rfl rfl rfl).2.2.1 51.1 (-0.1)
     (.ok (.obj [("status", .str "error")])) (by decide),
   (no_credentials_reaches_done depsNone rfl rfl rfl).2.2.2.2⟩
